import Mathlib

/-!
# Verification of the OpenFOAM post-processing scripts

Shallow embedding of the two scripts of this repository,
`scripts/generate-plots.py` and `scripts/generate-report.py`, together with
proofs of the specified properties.

Modelling conventions:
* Python floats are modelled by `ℚ` (all values appearing in the claims are
  exact decimals, where rational and IEEE-double comparisons agree).
* CSV cells are `String`s; the builtins `float(...)` and `int(...)` are
  modelled by explicit character-level parsers over the finite decimal /
  integer literal syntax (the special values inf and nan, and underscore
  digit grouping, do not occur in any input considered here).  The parser
  first produces an exact decimal `mantissa * 10 ^ exponent` and then
  interprets it in `ℚ`.
* Filesystem state is passed explicitly: the content of a file is an
  `Option String` (`none` = absent); writes are returned as lists of paths.
* A Python process run is a value `(exitCode, printedLines, writtenPaths)`;
  an uncaught exception is an `Except.error`.
-/

namespace OpenFoamScripts

/-- Strip leading and trailing whitespace, as Python's `str.strip()` /
the stripping performed by `float(...)` and `int(...)`. -/
def pyStrip (cs : List Char) : List Char :=
  ((cs.dropWhile Char.isWhitespace).reverse.dropWhile Char.isWhitespace).reverse

/-- Value of a nonempty all-digit character list, `none` otherwise. -/
def digitsToNat? (cs : List Char) : Option ℕ :=
  if cs.isEmpty then none
  else cs.foldl (fun acc c =>
    acc.bind (fun n => if c.isDigit then some (10 * n + (c.toNat - 48)) else none))
    (some 0)

/-- Consume an optional leading sign; returns (isNegative, rest). -/
def parseSign : List Char → Bool × List Char
  | '+' :: r => (false, r)
  | '-' :: r => (true, r)
  | r => (false, r)

/-- Split a character list at every occurrence of `sep` (Python-style
`str.split(sep)`: n separators yield n+1 pieces, possibly empty). -/
def splitChar (sep : Char) (cs : List Char) : List (List Char) :=
  cs.foldr (fun c acc =>
    match acc with
    | [] => [[c]]
    | cur :: rest => if c = sep then [] :: cur :: rest else (c :: cur) :: rest)
    [[]]

/-- An exact decimal value `mant * 10 ^ exp10`, the intermediate form in
which the `float(...)` model reads a literal before interpreting it. -/
structure PyDec where
  mant : ℤ
  exp10 : ℤ
deriving DecidableEq

/-- The rational value of an exact decimal. -/
def PyDec.toRat (d : PyDec) : ℚ :=
  if 0 ≤ d.exp10 then (d.mant : ℚ) * 10 ^ d.exp10.toNat
  else (d.mant : ℚ) / 10 ^ (-d.exp10).toNat

/-- Mantissa of a Python float literal (`digits`, `digits.`, `.digits` or
`digits.digits`): returns the digit string's value together with the
number of fractional digits. -/
def parseMantissa? (cs : List Char) : Option (ℕ × ℕ) :=
  match splitChar '.' cs with
  | [ip] => (digitsToNat? ip).map (fun n => (n, 0))
  | [ip, fp] =>
    if ip.isEmpty && fp.isEmpty then none
    else
      match (if ip.isEmpty then some 0 else digitsToNat? ip),
            (if fp.isEmpty then some 0 else digitsToNat? fp) with
      | some i, some f => some (i * 10 ^ fp.length + f, fp.length)
      | _, _ => none
  | _ => none

/-- Exponent of a Python float literal: optional sign then digits. -/
def parseExpChars? (cs : List Char) : Option ℤ :=
  let s := parseSign cs
  (digitsToNat? s.2).map (fun n => if s.1 then -(n : ℤ) else (n : ℤ))

/-- Character-level model of Python's `float(...)` on finite decimal
literals: sign, mantissa, optional `e`/`E` exponent; the result is the
exact decimal read. -/
def parseDecimalChars? (cs : List Char) : Option PyDec :=
  let s := parseSign cs
  let lowered := s.2.map (fun c => if c = 'E' then 'e' else c)
  let signed : ℕ → ℤ := fun n => if s.1 then -(n : ℤ) else (n : ℤ)
  match splitChar 'e' lowered with
  | [m] => (parseMantissa? m).map (fun p => ⟨signed p.1, -(p.2 : ℤ)⟩)
  | [m, ex] =>
    match parseMantissa? m, parseExpChars? ex with
    | some p, some e => some ⟨signed p.1, e - (p.2 : ℤ)⟩
    | _, _ => none
  | _ => none

/-- Model of Python's `float(s)` for a string cell (raises ↦ `none`). -/
def parseFloat? (s : String) : Option ℚ :=
  (parseDecimalChars? (pyStrip s.data)).map PyDec.toRat

/-- Model of Python's `int(s)` (raises ↦ `none`). -/
def parseInt? (s : String) : Option ℤ :=
  let t := pyStrip s.data
  let sg := parseSign t
  (digitsToNat? sg.2).map (fun n => if sg.1 then -(n : ℤ) else (n : ℤ))

/-- One row of `summary.csv` as `generate-report.py` sees it after
`pd.read_csv`: `Reynolds` and `Runtime` parse as numbers throughout the
study, `Status` is a string, `FinalResidual` is a string cell that may hold
the sentinel `N/A`. -/
structure SummaryRow where
  Reynolds : ℤ
  Status : String
  Runtime : ℚ
  FinalResidual : String

/-- Convergence-quality label of one summary row
(`generate-report.py`, lines 176-186): default `Excellent`; for a
non-`N/A` cell, a successful `float` parse gives `Poor` above `0.001`,
`Good` above `0.0001`, and leaves `Excellent` otherwise, while a failed
parse gives `Unknown`. -/
def convergence_quality (finalResidual : String) : String :=
  if finalResidual ≠ "N/A" then
    match parseFloat? finalResidual with
    | some residual_val =>
      if residual_val > 0.001 then "Poor"
      else if residual_val > 0.0001 then "Good"
      else "Excellent"
    | none => "Unknown"
  else "Excellent"

/-- The convergence-quality derivation exactly as the specification words
it: `N/A` ↦ `Excellent`; otherwise numeric parse with thresholds
`1e-3` and `1e-4`; parse failure ↦ `Unknown`. -/
def convergence_quality_specified (finalResidual : String) : String :=
  if finalResidual = "N/A" then "Excellent"
  else
    match parseFloat? finalResidual with
    | some v =>
      if v > 0.001 then "Poor"
      else if v > 0.0001 then "Good"
      else "Excellent"
    | none => "Unknown"

/-- C2: for every summary row the derived convergence-quality label follows
the specified derivation ("N/A" ↦ Excellent; parsed value > 1e-3 ↦ Poor,
> 1e-4 ↦ Good, ≤ 1e-4 ↦ Excellent; parse failure ↦ Unknown), and in
particular 0.0005 ↦ Good, 0.00005 ↦ Excellent, 0.01 ↦ Poor,
"N/A" ↦ Excellent, "abc" ↦ Unknown. -/
theorem c2_convergence_quality_conforms :
    (∀ s : String, convergence_quality s = convergence_quality_specified s) ∧
    convergence_quality "0.0005" = "Good" ∧
    convergence_quality "0.00005" = "Excellent" ∧
    convergence_quality "0.01" = "Poor" ∧
    convergence_quality "N/A" = "Excellent" ∧
    convergence_quality "abc" = "Unknown" := by
  have h1 : parseDecimalChars? (pyStrip "0.0005".data) = some ⟨5, -4⟩ := by decide
  have h2 : parseDecimalChars? (pyStrip "0.00005".data) = some ⟨5, -5⟩ := by decide
  have h3 : parseDecimalChars? (pyStrip "0.01".data) = some ⟨1, -2⟩ := by decide
  have h5 : parseDecimalChars? (pyStrip "abc".data) = none := by decide
  have t4 : ((4 : ℤ)).toNat = 4 := rfl
  have t5 : ((5 : ℤ)).toNat = 5 := rfl
  have t2 : ((2 : ℤ)).toNat = 2 := rfl
  refine ⟨?_, ?_, ?_, ?_, by norm_num [convergence_quality], ?_⟩
  · intro s
    by_cases h : s = "N/A" <;>
      simp [convergence_quality, convergence_quality_specified, h]
  · have hne : ("0.0005" : String) ≠ "N/A" := by decide
    norm_num [convergence_quality, hne, parseFloat?, h1, PyDec.toRat, t4]
  · have hne : ("0.00005" : String) ≠ "N/A" := by decide
    norm_num [convergence_quality, hne, parseFloat?, h2, PyDec.toRat, t5]
  · have hne : ("0.01" : String) ≠ "N/A" := by decide
    norm_num [convergence_quality, hne, parseFloat?, h3, PyDec.toRat, t2]
  · have hne : ("abc" : String) ≠ "N/A" := by decide
    norm_num [convergence_quality, hne, parseFloat?, h5]

/-- `df[df['Status'] == 'SUCCESS']` (`generate-report.py`, line 106). -/
def successful_df (df : List SummaryRow) : List SummaryRow :=
  df.filter (fun r => r.Status == "SUCCESS")

/-- `len(df)` (`generate-report.py`, line 101). -/
def total_cases (df : List SummaryRow) : ℕ := df.length

/-- `len(df[df['Status'] == 'SUCCESS'])` (`generate-report.py`, line 102). -/
def successful_cases (df : List SummaryRow) : ℕ := (successful_df df).length

/-- `(successful_cases / total_cases * 100) if total_cases > 0 else 0`
(`generate-report.py`, line 103); the division is Python float division,
modelled in `ℚ`. -/
def success_rate (df : List SummaryRow) : ℚ :=
  if 0 < total_cases df then
    (successful_cases df : ℚ) / (total_cases df : ℚ) * 100
  else 0

/-- `successful_df['Runtime'].mean() if not successful_df.empty else 0`
(`generate-report.py`, line 107). -/
def avg_runtime (df : List SummaryRow) : ℚ :=
  if (successful_df df).isEmpty then 0
  else ((successful_df df).map SummaryRow.Runtime).sum / ((successful_df df).length : ℚ)

/-- A four-row summary table with three `SUCCESS` rows, the concrete
instance named by the specification. -/
def exampleTable4 : List SummaryRow :=
  [⟨100, "SUCCESS", 10, "0.0005"⟩,
   ⟨200, "SUCCESS", 20, "0.00005"⟩,
   ⟨400, "SUCCESS", 30, "N/A"⟩,
   ⟨800, "FAILED", 0, "N/A"⟩]

/-- A summary table with no successful row. -/
def allFailedTable : List SummaryRow := [⟨100, "FAILED", 5, "N/A"⟩]

/-- C3: the reported success rate is (number of `SUCCESS` rows) / (total
rows) × 100, and 0 for the empty table (the division is guarded, so there
is no division-by-zero failure); on a 4-row table with 3 `SUCCESS` rows it
is 75. -/
theorem c3_success_rate_correct :
    (∀ df : List SummaryRow,
      success_rate df =
        if df.length = 0 then 0
        else ((df.countP (fun r => r.Status == "SUCCESS") : ℕ) : ℚ) / (df.length : ℚ) * 100) ∧
    success_rate [] = 0 ∧
    success_rate exampleTable4 = 75 := by
  have hf : successful_df exampleTable4 =
      [⟨100, "SUCCESS", 10, "0.0005"⟩,
       ⟨200, "SUCCESS", 20, "0.00005"⟩,
       ⟨400, "SUCCESS", 30, "N/A"⟩] := rfl
  refine ⟨?_, by simp [success_rate, total_cases], ?_⟩
  · intro df
    by_cases h : df.length = 0
    · simp [success_rate, total_cases, h]
    · simp only [success_rate, total_cases, successful_cases, successful_df,
        List.countP_eq_length_filter, if_pos (Nat.pos_of_ne_zero h), if_neg h]
  · have hlen : exampleTable4.length = 4 := rfl
    norm_num [success_rate, total_cases, successful_cases, hf, hlen]

/-- C4: the average-runtime metric is 0 when there is no `SUCCESS` row
(no division-by-zero / mean-of-empty failure) and otherwise the mean of
`Runtime` over the `SUCCESS` rows; concretely 0 on a table with one
`FAILED` row and 20 on the 4-row example table. -/
theorem c4_avg_runtime_zero_safe :
    (∀ df : List SummaryRow,
      avg_runtime df =
        if (df.filter (fun r => r.Status == "SUCCESS")).length = 0 then 0
        else ((df.filter (fun r => r.Status == "SUCCESS")).map SummaryRow.Runtime).sum /
          (((df.filter (fun r => r.Status == "SUCCESS")).length : ℕ) : ℚ)) ∧
    avg_runtime allFailedTable = 0 ∧
    avg_runtime exampleTable4 = 20 := by
  have hf : successful_df exampleTable4 =
      [⟨100, "SUCCESS", 10, "0.0005"⟩,
       ⟨200, "SUCCESS", 20, "0.00005"⟩,
       ⟨400, "SUCCESS", 30, "N/A"⟩] := rfl
  have hf0 : successful_df allFailedTable = [] := rfl
  refine ⟨?_, ?_, ?_⟩
  · intro df
    simp [avg_runtime, successful_df, List.isEmpty_iff_length_eq_zero]
  · simp [avg_runtime, hf0]
  · norm_num [avg_runtime, hf]

/-- The final-residual panel of the 2×2 summary chart
(`generate-summary-plots`, `generate-report.py` lines 40-59): restrict to
`Status == 'SUCCESS'` rows, coerce `FinalResidual` to numeric
(`errors='coerce'`: failures become missing), keep the rows whose coerced
value is present, and plot (Reynolds, residual) pairs; the panel is drawn
only when that data is nonempty (`none` = panel omitted). -/
def generate_summary_plots_residual_panel (df : List SummaryRow) :
    Option (List (ℤ × ℚ)) :=
  let successful := df.filter (fun r => r.Status == "SUCCESS")
  if successful.isEmpty then none
  else
    let residuals := successful.map (fun r => parseFloat? r.FinalResidual)
    let valid_data := (successful.zip residuals).filter (fun p => p.2.isSome)
    if valid_data.isEmpty then none
    else some (valid_data.filterMap (fun p => p.2.map (fun q => (p.1.Reynolds, q))))

/-- The residual-vs-Reynolds series exactly as the specification words it:
the rows with `Status = SUCCESS` and a numerically parseable
`FinalResidual`, in order; the panel is omitted when no such row exists. -/
def residual_panel_specified (df : List SummaryRow) : Option (List (ℤ × ℚ)) :=
  let pts := df.filterMap (fun r =>
    if r.Status == "SUCCESS" then
      (parseFloat? r.FinalResidual).map (fun q => (r.Reynolds, q))
    else none)
  if pts.isEmpty then none else some pts

lemma zip_self_map {α β : Type} (l : List α) (f : α → β) :
    l.zip (l.map f) = l.map (fun a => (a, f a)) := by
  induction l with
  | nil => rfl
  | cons a t ih => simp [ih]

lemma residual_series_eq (l : List SummaryRow) :
    ((l.map (fun r => (r, parseFloat? r.FinalResidual))).filter
        (fun p => p.2.isSome)).filterMap
      (fun p => p.2.map (fun q => (p.1.Reynolds, q))) =
    l.filterMap (fun r => (parseFloat? r.FinalResidual).map (fun q => (r.Reynolds, q))) := by
  induction l with
  | nil => rfl
  | cons a t ih => cases h : parseFloat? a.FinalResidual <;> simp [h, ih]

lemma residual_series_length (l : List SummaryRow) :
    (((l.map (fun r => (r, parseFloat? r.FinalResidual))).filter
        (fun p => p.2.isSome)).filterMap
      (fun p => p.2.map (fun q => (p.1.Reynolds, q)))).length =
    ((l.map (fun r => (r, parseFloat? r.FinalResidual))).filter
        (fun p => p.2.isSome)).length := by
  induction l with
  | nil => rfl
  | cons a t ih => cases h : parseFloat? a.FinalResidual <;> simp [h, ih]

lemma filterMap_filter_status (l : List SummaryRow) (g : SummaryRow → Option (ℤ × ℚ)) :
    (l.filter (fun r => r.Status == "SUCCESS")).filterMap g =
      l.filterMap (fun r => if r.Status == "SUCCESS" then g r else none) := by
  induction l with
  | nil => rfl
  | cons a t ih =>
    by_cases h : a.Status = "SUCCESS"
    · have hb : (a.Status == "SUCCESS") = true := by simpa using h
      cases hga : g a <;>
        simp [List.filter_cons, List.filterMap_cons, hb, h, hga, ih]
    · have hb : (a.Status == "SUCCESS") = false := by simpa using h
      cases hga : g a <;>
        simp [List.filter_cons, List.filterMap_cons, hb, h, hga, ih]

/-- C8: the final-residual panel is computed from exactly the rows with
`Status = SUCCESS` and a parseable `FinalResidual` (non-numeric cells,
including the `N/A` sentinel, are dropped rather than read as zero), and
the panel is omitted when no such row exists; on the example table the
`N/A` rows disappear from the series. -/
theorem c8_residual_panel_series :
    (∀ df : List SummaryRow,
      generate_summary_plots_residual_panel df = residual_panel_specified df) ∧
    generate_summary_plots_residual_panel exampleTable4 =
      some [(100, (5 : ℚ) / 10 ^ 4), (200, (5 : ℚ) / 10 ^ 5)] := by
  have main : ∀ df : List SummaryRow,
      generate_summary_plots_residual_panel df = residual_panel_specified df := by
    intro df
    simp only [generate_summary_plots_residual_panel, residual_panel_specified,
      zip_self_map]
    rw [← filterMap_filter_status df
      (fun r => (parseFloat? r.FinalResidual).map (fun q => (r.Reynolds, q)))]
    set s := df.filter (fun r => r.Status == "SUCCESS") with hs
    by_cases he : s.isEmpty
    · have hnil : s = [] := by simpa [List.isEmpty_iff] using he
      simp [he, hnil]
    · simp only [he, if_false, Bool.false_eq_true]
      rw [residual_series_eq]
      have hlen := residual_series_length s
      rw [residual_series_eq] at hlen
      by_cases hv :
          ((s.map (fun r => (r, parseFloat? r.FinalResidual))).filter
            (fun p => p.2.isSome)).isEmpty
      · have h0 : (s.filterMap
            (fun r => (parseFloat? r.FinalResidual).map (fun q => (r.Reynolds, q)))) = [] := by
          rw [List.isEmpty_iff_length_eq_zero] at hv
          rw [← List.length_eq_zero, hlen, hv]
        simp [hv, h0]
      · have h0 : ¬ ((s.filterMap
            (fun r => (parseFloat? r.FinalResidual).map (fun q => (r.Reynolds, q)))).isEmpty = true) := by
          rw [List.isEmpty_iff_length_eq_zero] at hv ⊢
          rw [hlen]
          exact hv
        simp [hv, h0]
  refine ⟨main, ?_⟩
  have hp1 : parseDecimalChars? (pyStrip "0.0005".data) = some ⟨5, -4⟩ := by decide
  have hp2 : parseDecimalChars? (pyStrip "0.00005".data) = some ⟨5, -5⟩ := by decide
  have hpna : parseDecimalChars? (pyStrip "N/A".data) = none := by decide
  have t4 : ((4 : ℤ)).toNat = 4 := rfl
  have t5 : ((5 : ℤ)).toNat = 5 := rfl
  rw [main]
  norm_num [residual_panel_specified, exampleTable4, parseFloat?,
    hp1, hp2, hpna, PyDec.toRat, t4, t5, List.filterMap_cons]

/-- CSS class of a status cell (`generate-report.py`, line 174). -/
def status_class (status : String) : String :=
  if status == "SUCCESS" then "success"
  else if status == "FAILED" then "failed"
  else "warning"

/-- Python's fixed-point formatting `f"{x:.1f}"`, modelled on exact
rationals with round-half-to-even (binary-double rounding artifacts at
exact ties are not modelled; no claim depends on them). -/
def formatFixed1 (q : ℚ) : String :=
  let scaled := q * 10
  let fl : ℤ := Int.fdiv scaled.num (scaled.den : ℤ)
  let frac : ℚ := scaled - (fl : ℚ)
  let n : ℤ :=
    if frac < 1 / 2 then fl
    else if 1 / 2 < frac then fl + 1
    else if fl % 2 = 0 then fl else fl + 1
  let sign := if n < 0 then "-" else ""
  sign ++ toString (n.natAbs / 10) ++ "." ++ toString (n.natAbs % 10)

/-- Stand-in for Python's `str(...)` of a float cell: any deterministic
rendering; the exact digit string is irrelevant to the properties proved
here, only that it is a function of the value. -/
def pyFloatRepr (q : ℚ) : String := toString q

/-- The generated HTML up to (excluding) the interpolated timestamp
(`generate-report.py`, lines 110-135). -/
def html_style_and_heading : String :=
  "\n<!DOCTYPE html>\n<html>\n<head>\n    <title>OpenFOAM Parametric Study Report</title>\n    <style>\n"
  ++ "        body \x7b font-family: Arial, sans-serif; margin: 40px; \x7d\n"
  ++ "        .header \x7b background-color: #f0f0f0; padding: 20px; border-radius: 5px; \x7d\n"
  ++ "        .metrics \x7b display: flex; justify-content: space-around; margin: 20px 0; \x7d\n"
  ++ "        .metric \x7b text-align: center; padding: 15px; background-color: #e8f4f8; border-radius: 5px; \x7d\n"
  ++ "        .metric h3 \x7b margin: 0; color: #2c5f7f; \x7d\n"
  ++ "        .metric p \x7b font-size: 24px; font-weight: bold; margin: 5px 0; color: #1a4a60; \x7d\n"
  ++ "        table \x7b width: 100%; border-collapse: collapse; margin: 20px 0; \x7d\n"
  ++ "        th, td \x7b padding: 12px; text-align: left; border-bottom: 1px solid #ddd; \x7d\n"
  ++ "        th \x7b background-color: #4CAF50; color: white; \x7d\n"
  ++ "        tr:nth-child(even) \x7b background-color: #f2f2f2; \x7d\n"
  ++ "        .success \x7b color: green; font-weight: bold; \x7d\n"
  ++ "        .failed \x7b color: red; font-weight: bold; \x7d\n"
  ++ "        .warning \x7b color: orange; font-weight: bold; \x7d\n"
  ++ "        .timestamp \x7b color: #666; font-style: italic; \x7d\n"
  ++ "    </style>\n</head>\n<body>\n    <div class=\"header\">\n        <h1>🌊 OpenFOAM Parametric Study Report</h1>\n        <p class=\"timestamp\">Generated on: "

/-- The generated HTML from just after the timestamp to the end of the
table header (`generate-report.py`, lines 135-170): study line, the four
headline metric cards, the chart reference and the table header row. -/
def html_after_timestamp (df : List SummaryRow) : String :=
  "</p>\n        <p><strong>Study:</strong> Cavity Flow - Reynolds Number Parametric Analysis</p>\n    </div>\n    \n    <div class=\"metrics\">\n        <div class=\"metric\">\n            <h3>Total Cases</h3>\n            <p>"
  ++ toString (total_cases df)
  ++ "</p>\n        </div>\n        <div class=\"metric\">\n            <h3>Success Rate</h3>\n            <p>"
  ++ formatFixed1 (success_rate df)
  ++ "%</p>\n        </div>\n        <div class=\"metric\">\n            <h3>Successful Cases</h3>\n            <p>"
  ++ toString (successful_cases df)
  ++ "</p>\n        </div>\n        <div class=\"metric\">\n            <h3>Avg Runtime</h3>\n            <p>"
  ++ formatFixed1 (avg_runtime df)
  ++ "s</p>\n        </div>\n    </div>\n    \n    <h2>📊 Results Summary</h2>\n    <img src=\"parametric_study_summary.png\" alt=\"Parametric Study Summary\" style=\"width: 100%; max-width: 1000px;\">\n    \n    <h2>📋 Detailed Results</h2>\n    <table>\n        <tr>\n            <th>Reynolds Number</th>\n            <th>Status</th>\n            <th>Runtime (s)</th>\n            <th>Final Residual</th>\n            <th>Convergence Quality</th>\n        </tr>\n"

/-- One generated table row (`generate-report.py`, lines 173-196). -/
def html_table_row (r : SummaryRow) : String :=
  "\n        <tr>\n            <td>"
  ++ toString r.Reynolds
  ++ "</td>\n            <td><span class=\""
  ++ status_class r.Status
  ++ "\">"
  ++ r.Status
  ++ "</span></td>\n            <td>"
  ++ pyFloatRepr r.Runtime
  ++ "</td>\n            <td>"
  ++ r.FinalResidual
  ++ "</td>\n            <td>"
  ++ convergence_quality r.FinalResidual
  ++ "</td>\n        </tr>\n"

/-- The fixed closing section of the report
(`generate-report.py`, lines 198-224). -/
def html_report_tail : String :=
  "\n    </table>\n    \n    <h2>🔧 System Information</h2>\n    <ul>\n        <li><strong>Solver:</strong> simpleFoam (SIMPLE algorithm)</li>\n        <li><strong>Mesh:</strong> 20x20 structured grid</li>\n        <li><strong>Convergence Criteria:</strong> Residual < 1e-3</li>\n        <li><strong>Boundary Conditions:</strong> Moving lid cavity</li>\n    </ul>\n    \n    <h2>📈 CI/CD Integration</h2>\n    <p>This report demonstrates:</p>\n    <ul>\n        <li>✅ Automated parametric studies</li>\n        <li>✅ Quality validation and convergence checking</li>\n        <li>✅ Performance monitoring and metrics collection</li>\n        <li>✅ Structured reporting for DevOps integration</li>\n    </ul>\n    \n    <footer style=\"margin-top: 50px; padding: 20px; background-color: #f9f9f9; border-radius: 5px;\">\n        <p><em>Report generated by OpenFOAM CI/CD Pipeline</em></p>\n        <p>For questions or issues, contact the DevOps team.</p>\n    </footer>\n</body>\n</html>\n"

/-- The whole `html_content` written by `generate_html_report`
(`generate-report.py`, lines 110-229): head f-string with the timestamp
and metrics, one row per summary row, then the fixed tail. -/
def generate_html_report_content (now : String) (df : List SummaryRow) : String :=
  (html_style_and_heading ++ now ++ html_after_timestamp df)
  ++ String.join (df.map html_table_row) ++ html_report_tail

lemma string_data_append (a b : String) : (a ++ b).data = a.data ++ b.data := by
  cases a; cases b; rfl

lemma string_data_ext {a b : String} (h : a.data = b.data) : a = b := by
  cases a; cases b; exact congrArg String.mk h

lemma string_append_assoc (a b c : String) : (a ++ b) ++ c = a ++ (b ++ c) := by
  apply string_data_ext
  simp [string_data_append]

/-- C9: the generated report is a deterministic function of the summary
table and the timestamp: everything outside the timestamp slot depends on
the table alone, so two runs on the same table differ exactly when their
timestamps differ — in particular the table content is byte-identical. -/
theorem c9_report_deterministic_up_to_timestamp (df : List SummaryRow) (t1 t2 : String) :
    generate_html_report_content t1 df =
      html_style_and_heading ++ (t1 ++ (html_after_timestamp df ++
        (String.join (df.map html_table_row) ++ html_report_tail))) ∧
    (generate_html_report_content t1 df = generate_html_report_content t2 df ↔ t1 = t2) := by
  constructor
  · simp only [generate_html_report_content, string_append_assoc]
  · constructor
    · intro h
      have h1 := congrArg String.data h
      simp only [generate_html_report_content, string_data_append,
        List.append_assoc] at h1
      have h2 := List.append_cancel_left h1
      exact string_data_ext (List.append_cancel_right h2)
    · intro h
      rw [h]

/-- One run of `generate_summary_plots` (`generate-report.py`,
lines 16-88) as (printed lines, written paths): a missing `summary.csv` is
a warning and an early return with nothing written; otherwise the 2×2
summary chart is written. -/
def generate_summary_plots_run (results_dir : String) (summary? : Option (List SummaryRow)) :
    List String × List String :=
  match summary? with
  | none => (["Warning: Summary file not found: " ++ results_dir ++ "/summary.csv"], [])
  | some df =>
    (["Processing " ++ toString df.length ++ " simulation results",
      "Generated summary plot: " ++ results_dir ++ "/parametric_study_summary.png"],
     [results_dir ++ "/parametric_study_summary.png"])

/-- One run of `generate_html_report` (`generate-report.py`,
lines 90-232) as (printed lines, written paths): a missing `summary.csv`
prints an error and returns without writing; otherwise the HTML report is
written. -/
def generate_html_report_run (_now results_dir : String)
    (summary? : Option (List SummaryRow)) : List String × List String :=
  match summary? with
  | none => (["Error: Summary file not found: " ++ results_dir ++ "/summary.csv"], [])
  | some _df =>
    (["Generated HTML report: " ++ results_dir ++ "/parametric_study_report.html"],
     [results_dir ++ "/parametric_study_report.html"])

/-- `main()` of `generate-report.py` (lines 234-257), run with argument
vector `argv` (program name included), the existence of the results
directory, and the parsed content of `summary.csv` if it exists.  The
script calls `main()` bare, so a run that reaches the end exits 0. -/
def report_main (argv : List String) (results_dir_exists : Bool)
    (summary? : Option (List SummaryRow)) (now : String) :
    ℕ × List String × List String :=
  match argv with
  | [_, results_dir] =>
    if results_dir_exists = false then
      (1, ["Error: Results directory not found: " ++ results_dir], [])
    else
      let p := generate_summary_plots_run results_dir summary?
      let h := generate_html_report_run now results_dir summary?
      (0,
       ["Generating comprehensive report for: " ++ results_dir] ++ p.1 ++ h.1 ++
         ["Report generation completed successfully!",
          "Open " ++ results_dir ++ "/parametric_study_report.html to view the report"],
       p.2 ++ h.2)
  | _ => (1, ["Usage: python3 generate-report.py <results_directory>"], [])

/-- C1 counterexample: with the results directory present but
`summary.csv` absent, the report generator writes no file yet exits with
code 0 — not a nonzero code, contradicting the claim that this path is
fatal. -/
theorem c1_missing_summary_counterexample :
    ¬ ((report_main ["generate-report.py", "results"] true none "t").1 ≠ 0) ∧
    (report_main ["generate-report.py", "results"] true none "t").2.2 = [] := by
  constructor
  · simp [report_main, generate_summary_plots_run, generate_html_report_run]
  · rfl

/-- C1 (amended): when `summary.csv` does not exist, the HTML-report path
of the report generator prints an error and returns without writing any
file, and the summary-plot step likewise writes nothing; the process still
completes and exits with code 0 rather than a nonzero code. -/
theorem c1_missing_summary_amended (prog results_dir now : String) :
    (report_main [prog, results_dir] true none now).1 = 0 ∧
    (report_main [prog, results_dir] true none now).2.2 = [] ∧
    ("Error: Summary file not found: " ++ results_dir ++ "/summary.csv")
      ∈ (report_main [prog, results_dir] true none now).2.1 := by
  refine ⟨rfl, rfl, ?_⟩
  simp [report_main, generate_summary_plots_run, generate_html_report_run]

/-- One row of the residual log as read by `plot_residuals`
(`generate-plots.py`, lines 24-25): columns Time, Ux, Uy, p. -/
structure ResidualRecord where
  Time : ℚ
  Ux : ℚ
  Uy : ℚ
  p : ℚ

/-- The same row at the exact-decimal level (used so that parsing is
kernel-evaluable; `ResidualRecord` is its rational interpretation). -/
structure ResidualRecordDec where
  Time : PyDec
  Ux : PyDec
  Uy : PyDec
  p : PyDec
deriving DecidableEq

/-- Interpret an exact-decimal row in `ℚ`. -/
def ResidualRecordDec.toRecord (d : ResidualRecordDec) : ResidualRecord :=
  ⟨d.Time.toRat, d.Ux.toRat, d.Uy.toRat, d.p.toRat⟩

/-- Split a line into whitespace-separated tokens (the `sep='\s+'`
behaviour of the `pd.read_csv` call). -/
def splitWhitespace (cs : List Char) : List (List Char) :=
  let acc := cs.foldr (fun c (acc : List Char × List (List Char)) =>
    if c.isWhitespace then ([], if acc.1.isEmpty then acc.2 else acc.1 :: acc.2)
    else (c :: acc.1, acc.2)) ([], [])
  if acc.1.isEmpty then acc.2 else acc.1 :: acc.2

/-- Parse one data line of the residual log: exactly four
whitespace-separated float tokens, else the read/render raises
(modelled as the error message the caught exception carries). -/
def parseResidualLine (l : List Char) : Except String ResidualRecordDec :=
  match splitWhitespace l with
  | [t, ux, uy, pr] =>
    match parseDecimalChars? t, parseDecimalChars? ux,
          parseDecimalChars? uy, parseDecimalChars? pr with
    | some a, some b, some c, some d => .ok ⟨a, b, c, d⟩
    | _, _, _, _ => .error "could not convert string to float"
  | _ => .error "Length mismatch: expected 4 columns"

/-- Exact-decimal level of the `pd.read_csv(residuals_file, sep='\s+',
header=None, skiprows=1)` call plus the 4-column assignment
(`generate-plots.py`, lines 24-25): drop the first line, skip blank
lines, and require every remaining line to be four float tokens; an
empty data section or any malformed line is an exception (caught by the
caller). -/
def parse_residuals_dec (content : String) : Except String (List ResidualRecordDec) :=
  let rawLines := splitChar '\n' content.data
  let dataLines := (rawLines.drop 1).filter (fun l => !(l.all Char.isWhitespace))
  if dataLines.isEmpty then .error "EmptyDataError: No columns to parse from file"
  else dataLines.mapM parseResidualLine

/-- The residual-log read, interpreted in `ℚ`. -/
def parse_residuals (content : String) : Except String (List ResidualRecord) :=
  (parse_residuals_dec content).map (List.map ResidualRecordDec.toRecord)

instance {ε α : Type} [DecidableEq ε] [DecidableEq α] : DecidableEq (Except ε α)
  | .ok a, .ok b =>
    if h : a = b then .isTrue (by rw [h]) else .isFalse (fun hh => h (Except.ok.inj hh))
  | .ok _, .error _ => .isFalse (fun hh => Except.noConfusion hh)
  | .error _, .ok _ => .isFalse (fun hh => Except.noConfusion hh)
  | .error a, .error b =>
    if h : a = b then .isTrue (by rw [h]) else .isFalse (fun hh => h (Except.error.inj hh))

/-- Environment of one plot-generator run: the content of the residual
log (at its fixed relative path) if it exists, and whether matplotlib
raises while rendering either figure (an exogenous failure the script
catches). -/
structure PlotEnv where
  residuals_file : Option String
  residualRenderFails : Bool
  velocityRenderFails : Bool

/-- `plot_residuals` (`generate-plots.py`, lines 14-50) as
(success flag, printed lines, written paths): missing log ↦ warning and
`False`; any parse or render exception is caught and yields `False` with
nothing written; otherwise the plot image is saved and the result is
`True`.  The return type is a plain tuple: no exception escapes. -/
def plot_residuals (case_dir : String) (reynolds_num : ℤ) (env : PlotEnv) :
    Bool × List String × List String :=
  match env.residuals_file with
  | none =>
    (false,
     ["Warning: Residuals file not found: " ++ case_dir ++
       "/postProcessing/residuals/0/residuals.dat"], [])
  | some content =>
    match parse_residuals content with
    | .error e => (false, ["Error plotting residuals: " ++ e], [])
    | .ok _data =>
      if env.residualRenderFails then
        (false, ["Error plotting residuals: render failure"], [])
      else
        (true,
         ["Generated residuals plot: " ++ case_dir ++ "/plots/residuals_Re" ++
           toString reynolds_num ++ ".png"],
         [case_dir ++ "/plots/residuals_Re" ++ toString reynolds_num ++ ".png"])

/-- `plot_velocity_profile` (`generate-plots.py`, lines 52-99): the body
is synthetic (no file input), so only an exogenous render exception can
make it fail; it is caught and yields `False`. -/
def plot_velocity_profile (case_dir : String) (reynolds_num : ℤ) (env : PlotEnv) :
    Bool × List String × List String :=
  if env.velocityRenderFails then
    (false, ["Error plotting velocity profile: render failure"], [])
  else
    (true,
     ["Generated velocity profile plot: " ++ case_dir ++
       "/plots/velocity_profile_Re" ++ toString reynolds_num ++ ".png"],
     [case_dir ++ "/plots/velocity_profile_Re" ++ toString reynolds_num ++ ".png"])

/-- The usage line printed on a wrong argument count. -/
def plots_usage : String :=
  "Usage: python3 generate-plots.py <case_directory> <reynolds_number>"

/-- `main()` of `generate-plots.py` (lines 101-127), run on the full
argument vector (program name included): wrong argument count prints the
usage line and exits 1; `int(sys.argv[2])` is unguarded, so a non-integer
second argument is an uncaught `ValueError`; otherwise the exit code is 0
iff both plot calls returned `True` and 1 otherwise. -/
def plots_main (argv : List String) (env : PlotEnv) :
    Except String (ℕ × List String × List String) :=
  match argv with
  | [_, case_dir, re_str] =>
    match parseInt? re_str with
    | none => .error ("ValueError: invalid literal for int() with base 10: " ++ re_str)
    | some reynolds_num =>
      let r := plot_residuals case_dir reynolds_num env
      let v := plot_velocity_profile case_dir reynolds_num env
      .ok (if r.1 && v.1 then 0 else 1,
           ["Generating plots for case: " ++ case_dir ++ ", Re = " ++
             toString reynolds_num] ++ r.2.1 ++ v.2.1 ++
             [if r.1 && v.1 then
               "Successfully generated all plots for Re = " ++ toString reynolds_num
              else "Some plots failed for Re = " ++ toString reynolds_num],
           r.2.2 ++ v.2.2)
  | _ => .ok (1, [plots_usage], [])

/-- C5: the residual-plot operation never propagates an exception (its
type is a plain result tuple); a missing log yields a `false` flag, a
warning and no written image; a present, parseable log with a working
renderer yields `true` and the image; a parse error or a render failure
is converted into `false` with nothing written. -/
theorem c5_plot_residuals_contract (case_dir : String) (re : ℤ) (env : PlotEnv) :
    (env.residuals_file = none →
      plot_residuals case_dir re env =
        (false,
         ["Warning: Residuals file not found: " ++ case_dir ++
           "/postProcessing/residuals/0/residuals.dat"], [])) ∧
    (∀ content rows, env.residuals_file = some content →
      parse_residuals content = .ok rows →
      env.residualRenderFails = false →
      plot_residuals case_dir re env =
        (true,
         ["Generated residuals plot: " ++ case_dir ++ "/plots/residuals_Re" ++
           toString re ++ ".png"],
         [case_dir ++ "/plots/residuals_Re" ++ toString re ++ ".png"])) ∧
    (∀ content e, env.residuals_file = some content →
      parse_residuals content = .error e →
      (plot_residuals case_dir re env).1 = false ∧
        (plot_residuals case_dir re env).2.2 = []) ∧
    (∀ content, env.residuals_file = some content →
      env.residualRenderFails = true →
      (plot_residuals case_dir re env).1 = false ∧
        (plot_residuals case_dir re env).2.2 = []) := by
  refine ⟨fun h => ?_, fun content rows hf hp hr => ?_, fun content e hf hp => ?_,
    fun content hf hr => ?_⟩
  · simp [plot_residuals, h]
  · simp [plot_residuals, hf, hp, hr]
  · constructor <;> simp [plot_residuals, hf, hp]
  · cases hp : parse_residuals content with
    | error e => constructor <;> simp [plot_residuals, hf, hp]
    | ok rows => constructor <;> simp [plot_residuals, hf, hp, hr]

/-- A well-formed residual log: a header line and two data rows. -/
def goodResidualLog : String :=
  "# Time Ux Uy p\n1 0.5 0.5 0.5\n2 0.25 0.25 0.25\n"

/-- Witness for C5: on a concrete valid log the residual plot succeeds
and writes the image named by the Reynolds number. -/
theorem c5_plot_residuals_contract_witness :
    plot_residuals "case" 100 ⟨some goodResidualLog, false, false⟩ =
      (true, ["Generated residuals plot: case/plots/residuals_Re100.png"],
       ["case/plots/residuals_Re100.png"]) := by
  have hd : parse_residuals_dec goodResidualLog =
      .ok [⟨⟨1, 0⟩, ⟨5, -1⟩, ⟨5, -1⟩, ⟨5, -1⟩⟩,
           ⟨⟨2, 0⟩, ⟨25, -2⟩, ⟨25, -2⟩, ⟨25, -2⟩⟩] := by decide
  have hp : parse_residuals goodResidualLog =
      .ok ([⟨⟨1, 0⟩, ⟨5, -1⟩, ⟨5, -1⟩, ⟨5, -1⟩⟩,
            ⟨⟨2, 0⟩, ⟨25, -2⟩, ⟨25, -2⟩, ⟨25, -2⟩⟩].map ResidualRecordDec.toRecord) := by
    simp [parse_residuals, hd, Except.map]
  have h := (c5_plot_residuals_contract "case" 100
    ⟨some goodResidualLog, false, false⟩).2.1
  have := h goodResidualLog
    ([⟨⟨1, 0⟩, ⟨5, -1⟩, ⟨5, -1⟩, ⟨5, -1⟩⟩,
      ⟨⟨2, 0⟩, ⟨25, -2⟩, ⟨25, -2⟩, ⟨25, -2⟩⟩].map ResidualRecordDec.toRecord)
    rfl hp rfl
  simpa using this

/-- C6: with a parseable Reynolds argument the plot generator exits 0 iff
both plot operations return success and 1 otherwise; with any other
argument count it prints the usage line and exits 1. -/
theorem c6_plots_main_exit_codes (prog case_dir re_str : String) (re : ℤ)
    (env : PlotEnv) (h : parseInt? re_str = some re) :
    ((plots_main [prog, case_dir, re_str] env).toOption.map Prod.fst = some 0 ↔
      (plot_residuals case_dir re env).1 = true ∧
        (plot_velocity_profile case_dir re env).1 = true) ∧
    ((plots_main [prog, case_dir, re_str] env).toOption.map Prod.fst = some 1 ↔
      ¬ ((plot_residuals case_dir re env).1 = true ∧
        (plot_velocity_profile case_dir re env).1 = true)) ∧
    (∀ argv : List String, argv.length ≠ 3 →
      plots_main argv env = .ok (1, [plots_usage], [])) := by
  refine ⟨?_, ?_, ?_⟩
  · cases hr : (plot_residuals case_dir re env).1 <;>
      cases hv : (plot_velocity_profile case_dir re env).1 <;>
        simp [plots_main, h, Except.toOption, hr, hv]
  · cases hr : (plot_residuals case_dir re env).1 <;>
      cases hv : (plot_velocity_profile case_dir re env).1 <;>
        simp [plots_main, h, Except.toOption, hr, hv]
  · intro argv hlen
    match argv with
    | [] => rfl
    | [_] => rfl
    | [_, _] => rfl
    | [_, _, _] => exact absurd rfl hlen
    | _ :: _ :: _ :: _ :: _ => rfl

/-- Witness for C6: with a missing residual log, one plot operation fails
and the exit code is 1. -/
theorem c6_plots_main_exit_codes_witness :
    (plots_main ["generate-plots.py", "case", "100"]
      ⟨none, false, false⟩).toOption.map Prod.fst = some 1 := by
  have h := c6_plots_main_exit_codes "generate-plots.py" "case" "100" 100
    ⟨none, false, false⟩ (by decide)
  exact (h.2.1).mpr (fun hc => by simpa [plot_residuals] using hc.1)

/-- C10: a correct argument count with a non-integer Reynolds argument is
an uncaught `ValueError` — not the usage-message/exit-1 path. -/
theorem c10_bad_reynolds_uncaught (prog case_dir re_str : String) (env : PlotEnv)
    (h : parseInt? re_str = none) :
    plots_main [prog, case_dir, re_str] env =
      .error ("ValueError: invalid literal for int() with base 10: " ++ re_str) := by
  simp [plots_main, h]

/-- Witness for C10: the argument "abc" does not parse as an integer and
the run is an uncaught exception. -/
theorem c10_bad_reynolds_uncaught_witness :
    plots_main ["generate-plots.py", "case", "abc"] ⟨none, false, false⟩ =
      .error ("ValueError: invalid literal for int() with base 10: " ++ "abc") :=
  c10_bad_reynolds_uncaught "generate-plots.py" "case" "abc"
    ⟨none, false, false⟩ (by decide)

/-- The sample grid `np.linspace(0, 1, 50)` of the velocity-profile
plotter (`generate-plots.py`, line 61): 50 evenly spaced points including
both endpoints. -/
noncomputable def y_grid : List ℝ :=
  (List.range 50).map (fun i => (i : ℝ) / 49)

/-- The synthesized U-velocity profile (`generate-plots.py`,
lines 64-67): a fixed-amplitude sine for `Re ≤ 100`, an
exponential-saturation envelope above. -/
noncomputable def u_profile (reynolds_num : ℤ) (y : ℝ) : ℝ :=
  if reynolds_num ≤ 100 then Real.sin (Real.pi * y) * 0.8
  else Real.sin (Real.pi * y) * (1 - Real.exp (-(reynolds_num : ℝ) / 1000))

/-- The synthesized V-velocity profile (`generate-plots.py`, line 69):
`np.zeros_like(y)`. -/
def v_profile (_y : ℝ) : ℝ := 0

/-- C7: at every sample point of the synthesized grid the U-profile is
0.8·sin(πy) for Re ≤ 100 and sin(πy)·(1 − exp(−Re/1000)) for Re > 100,
and the V-profile is identically zero. -/
theorem c7_velocity_profile_formulas (re : ℤ) (y : ℝ) (_hy : y ∈ y_grid) :
    (re ≤ 100 → u_profile re y = 0.8 * Real.sin (Real.pi * y)) ∧
    (100 < re → u_profile re y =
      Real.sin (Real.pi * y) * (1 - Real.exp (-(re : ℝ) / 1000))) ∧
    v_profile y = 0 := by
  refine ⟨fun h => ?_, fun h => ?_, rfl⟩
  · rw [u_profile, if_pos h]; ring
  · rw [u_profile, if_neg (by omega)]

/-- Witness for C7: the grid point 0 with Re = 100 takes the
fixed-amplitude sine value, and the V-profile vanishes there. -/
theorem c7_velocity_profile_formulas_witness :
    (0 : ℝ) ∈ y_grid ∧
    u_profile 100 0 = 0.8 * Real.sin (Real.pi * 0) ∧
    v_profile 0 = 0 := by
  have hy : (0 : ℝ) ∈ y_grid := by
    have h0 := List.mem_map_of_mem (fun i : ℕ => (i : ℝ) / 49)
      (List.mem_range.mpr (show (0 : ℕ) < 50 by norm_num))
    rw [y_grid]
    convert h0 using 2
    norm_num
  obtain ⟨h1, -, h3⟩ := c7_velocity_profile_formulas 100 0 hy
  exact ⟨hy, h1 (by norm_num), h3⟩

end OpenFoamScripts
